import Mathlib

/-!
Verification of the pf2 sampling-profiler core against its specification.

The development shallowly embeds the Rust sources:
  - `src/ext/pf2/src/signal_scheduler.rs` (scheduler state machine, signal
    handler, flusher thread),
  - `src/ext/pf2/src/serialization/serializer.rs` (`ProfileSerializer2`:
    frame resolution, dedup, document emission).

Machine pointers (`VALUE` frame handles, thread handles) are modelled as
`Nat`; the Ruby runtime's frame-introspection API
(`rb_profile_frame_full_label` / `_path` / `_first_lineno`) is modelled as
an environment function from frame handles to the returned metadata.
Lock acquisition (`RwLock::try_write`) is modelled by a boolean input
saying whether the lock is currently available; a `false` value is the
contended case in which `try_write` returns `Err` immediately.
-/

namespace Pf2

/-- Ruby `VALUE` frame handle (opaque machine word). -/
abbrev Frame := Nat

/-- Metadata the Ruby runtime returns for a frame: the result of
`rb_profile_frame_full_label`, `rb_profile_frame_path` and
`rb_profile_frame_first_lineno` (each `None` when the runtime returns a
non-truthy `VALUE`). -/
structure FrameInfo where
  full_label : Option String
  path : Option String
  first_lineno : Option Int
deriving DecidableEq

/-- The frame-description collaborator: a fixed mapping from frame handles
to their metadata, standing in for the Ruby C API calls made by
`extract_function_from_frame`. -/
abbrev FrameEnv := Frame → FrameInfo

/-- Raw sample captured at signal time (`crate::sample::Sample`).
Modelled from the spec: the struct definition (sample.rs) is not under
src/; §3 "Sample (raw, staged)" gives monotonic timestamp, interrupted
thread identity and a fixed-capacity leaf-first frame list with per-frame
line numbers, and the serializer reads fields `line_count`, `frames`,
`linenos`, `ruby_thread`, while `stop()` reads `timestamp`. -/
structure Sample where
  timestamp : Nat
  ruby_thread : Nat
  line_count : Nat
  frames : List Frame
  linenos : List Int
deriving DecidableEq

/-- Default raw sample, used only as the out-of-bounds default of `getD`. -/
def rawDefault : Sample :=
  { timestamp := 0, ruby_thread := 0, line_count := 0, frames := [], linenos := [] }

/-- Bounded staging area for samples captured in signal context
(`Profile::temporary_sample_buffer`). Modelled from the spec: the buffer
type is not under src/; §3 "bounded staging sequence" with a capacity
preallocated at start. -/
structure TemporarySampleBuffer where
  capacity : Nat
  staged : List Sample
deriving DecidableEq

/-- Error value for a staging attempt on a full buffer (spec §4.1 / §7). -/
inductive BufferFull
  | full
deriving DecidableEq

/-- Stage a raw sample (`temporary_sample_buffer.push`). Modelled from the
spec: the implementation is not under src/; §4.1 `stage()` appends to the
fixed-capacity staging sequence and fails with `BufferFull` when the
sequence has reached its capacity. -/
def TemporarySampleBuffer.push (buf : TemporarySampleBuffer) (s : Sample) :
    Except BufferFull TemporarySampleBuffer :=
  if buf.staged.length < buf.capacity then
    Except.ok { buf with staged := buf.staged ++ [s] }
  else
    Except.error BufferFull.full

/-- The shared v1 profile (`crate::profile::Profile`). Modelled from the
spec: profile.rs is not under src/; §3 gives a start timestamp set once at
creation, the durable ordered sample sequence and the bounded staging
sequence, and `stop()` reads `start_timestamp` and `samples`. -/
structure Profile where
  start_timestamp : Nat
  samples : List Sample
  temporary_sample_buffer : TemporarySampleBuffer
deriving DecidableEq

/-- Create a fresh profile (`Profile::new`). Modelled from the spec: §3
"start timestamp (monotonic, nanosecond resolution, set once at creation)",
empty durable sequence, staging capacity preallocated at start. The
current clock reading and the staging capacity are inputs. -/
def Profile.new (now cap : Nat) : Profile :=
  { start_timestamp := now
    samples := []
    temporary_sample_buffer := { capacity := cap, staged := [] } }

/-- Promote staged samples into the durable list
(`Profile::flush_temporary_sample_buffer`). Modelled from the spec: the
implementation is not under src/; §4.1 `drain_staged()` atomically empties
the staging sequence, and the drained raw samples are appended to the
durable sequence in order (§5: durable samples preserve capture order). -/
def Profile.flush_temporary_sample_buffer (p : Profile) : Profile :=
  { p with
    samples := p.samples ++ p.temporary_sample_buffer.staged
    temporary_sample_buffer := { p.temporary_sample_buffer with staged := [] } }

namespace Serialization

/-- Implementation kind of a function (`serialization::profile::FunctionImplementation`).
Modelled from the spec: the enum is not under src/; §3 requires at least
"interpreted" vs "native", and `extract_function_from_frame` uses the
`Ruby` variant. -/
inductive FunctionImplementation
  | ruby
  | native
deriving DecidableEq

/-- Deduplicated function entry (`serialization::profile::Function`).
Modelled from the spec: the struct is not under src/; §3 gives the fields,
and equality (the derived `PartialEq` used by `process_ruby_frame`'s
dedup scan) holds iff all fields are equal. -/
structure Function where
  implementation : FunctionImplementation
  name : Option String
  filename : Option String
  start_lineno : Option Int
  start_address : Option Nat
deriving DecidableEq

/-- Deduplicated location entry (`serialization::profile::Location`).
Modelled from the spec: the struct is not under src/; §3: two locations
are the same entity iff `function_index`, line and address are all
equal. -/
structure Location where
  function_index : Nat
  lineno : Int
  address : Option Nat
deriving DecidableEq

/-- Resolved sample in the output document (`serialization::profile::Sample`):
a leaf-first list of location indices plus the thread identity. -/
structure Sample where
  stack : List Nat
  ruby_thread_id : Option Nat
deriving DecidableEq

/-- Default resolved sample, used only as the out-of-bounds default of
`getD`. -/
def sampleDefault : Sample :=
  { stack := [], ruby_thread_id := none }

/-- The output document being built (`serialization::profile::Profile`),
the serializable struct owned by `ProfileSerializer2`. -/
structure Profile where
  start_timestamp_ns : Nat
  duration_ns : Nat
  samples : List Sample
  locations : List Location
  functions : List Function
deriving DecidableEq

end Serialization

/-- Boolean equality-with test used by the dedup scans
(`|f| *f == function` / `|l| *l == location`). -/
def isEq {α : Type} [DecidableEq α] (a : α) : α → Bool :=
  fun x => decide (x = a)

/-- Rust `Iterator::position`: index of the first element satisfying the
predicate, if any. -/
def position {α : Type} (p : α → Bool) : List α → Option Nat
  | [] => none
  | x :: xs => if p x then some 0 else (position p xs).map (fun i => i + 1)

/-- The common dedup shape of `process_ruby_frame`: scan the table for an
entry equal to `a` and return its index; otherwise push `a` and return the
index of the new last entry. -/
def resolve {α : Type} [DecidableEq α] (l : List α) (a : α) : List α × Nat :=
  match position (isEq a) l with
  | some index => (l, index)
  | none => (l ++ [a], l.length)

namespace ProfileSerializer2

/-- `ProfileSerializer2::new`: a serializer whose owned profile has zeroed
timestamps and empty tables. -/
def new : Serialization.Profile :=
  { start_timestamp_ns := 0
    duration_ns := 0
    samples := []
    locations := []
    functions := [] }

/-- `ProfileSerializer2::extract_function_from_frame`: build a `Function`
from a frame's runtime metadata. The implementation kind is always `ruby`
and the start address is always `none` in this code path. -/
def extract_function_from_frame (env : FrameEnv) (frame : Frame) :
    Serialization.Function :=
  { implementation := Serialization.FunctionImplementation.ruby
    name := (env frame).full_label
    filename := (env frame).path
    start_lineno := (env frame).first_lineno
    start_address := none }

/-- `ProfileSerializer2::process_ruby_frame`: resolve the frame's
`Function` (dedup scan over `functions`, push on miss), then resolve the
`Location` built from the function index, the hit line and a `none`
address (dedup scan over `locations`, push on miss). Returns the updated
profile and the location index. -/
def process_ruby_frame (env : FrameEnv) (st : Serialization.Profile)
    (frame : Frame) (lineno : Int) : Serialization.Profile × Nat :=
  let function := extract_function_from_frame env frame
  let fr := resolve st.functions function
  let location : Serialization.Location :=
    { function_index := fr.2, lineno := lineno, address := none }
  let lr := resolve st.locations location
  ({ st with functions := fr.1, locations := lr.1 }, lr.2)

/-- One iteration of the per-sample frame loop in
`ProfileSerializer2::serialize`: process frame `i` of the raw sample and
append the returned location index to the stack being built. -/
def process_frame_step (env : FrameEnv) (raw : Pf2.Sample)
    (acc : Serialization.Profile × List Nat) (i : Nat) :
    Serialization.Profile × List Nat :=
  let frame := raw.frames.getD i 0
  let lineno := raw.linenos.getD i 0
  let pr := process_ruby_frame env acc.1 frame lineno
  (pr.1, acc.2 ++ [pr.2])

/-- The per-sample body of `ProfileSerializer2::serialize`: walk the raw
sample's first `line_count` frames leaf-first, building the stack of
location indices, then push the resolved `Sample` carrying the thread
identity. -/
def process_sample (env : FrameEnv) (st : Serialization.Profile)
    (raw : Pf2.Sample) : Serialization.Profile :=
  let r := (List.range raw.line_count).foldl (process_frame_step env raw) (st, [])
  { r.1 with
    samples := r.1.samples ++ [{ stack := r.2, ruby_thread_id := some raw.ruby_thread }] }

/-- `ProfileSerializer2::serialize`: process every durable sample of the
source profile in order. The emitted document is the serializer's owned
profile (its `serde_json` encoding is a faithful, injective rendering of
this structure and is not modelled separately). -/
def serialize (env : FrameEnv) (st : Serialization.Profile)
    (source : Pf2.Profile) : Serialization.Profile :=
  source.samples.foldl (process_sample env) st

/-- Model of the call `serializer.serialize(&source)`: the source profile
is passed by shared reference, so the call yields the document together
with the source, which the callee cannot have replaced. -/
def serialize_call (env : FrameEnv) (st : Serialization.Profile)
    (source : Pf2.Profile) : Serialization.Profile × Pf2.Profile :=
  (serialize env st source, source)

/-- A full serializer run as performed by a consumer: `new()` followed by
`serialize(&source)`. -/
def serializeDocument (env : FrameEnv) (source : Pf2.Profile) :
    Serialization.Profile :=
  serialize env new source

end ProfileSerializer2

namespace SignalScheduler

/-- Observable outcome of one `SignalScheduler::signal_handler` invocation. -/
inductive HandlerOutcome
  | droppedLockContention
  | staged
  | panicBufferFull
deriving DecidableEq

/-- `SignalScheduler::signal_handler`: try to acquire the profile lock
without blocking (`try_write`); on contention print a debug line and
return, dropping the sample. Otherwise capture a sample for the context
thread (`Sample::capture`, modelled by the `capture` input) and push it
onto the temporary sample buffer; when the push reports a full buffer the
handler calls `panic!`. -/
def signal_handler (capture : Nat → Pf2.Sample) (lockAvailable : Bool)
    (profile : Pf2.Profile) (context_ruby_thread : Nat) :
    Pf2.Profile × HandlerOutcome :=
  if lockAvailable then
    let sample := capture context_ruby_thread
    match profile.temporary_sample_buffer.push sample with
    | Except.ok buf =>
        ({ profile with temporary_sample_buffer := buf }, HandlerOutcome.staged)
    | Except.error _ => (profile, HandlerOutcome.panicBufferFull)
  else
    (profile, HandlerOutcome.droppedLockContention)

/-- Scheduler state: the `SignalScheduler` struct's `profile` field, plus
whether the flusher thread spawned by
`start_profile_buffer_flusher_thread` is running. -/
structure State where
  profile : Option Pf2.Profile
  flusherRunning : Bool
deriving DecidableEq

/-- The freshly allocated scheduler (`SignalScheduler::new`): no profile,
no flusher thread. -/
def idle : State :=
  { profile := none, flusherRunning := false }

/-- `SignalScheduler::start`: unconditionally create a fresh shared
profile, spawn the flusher thread, install the signal handler and timers
(external effects), store the profile and return `Qtrue`. There is no
state check: any previous profile is replaced. -/
def start (_s : State) (now cap : Nat) : State × Bool :=
  ({ profile := some (Pf2.Profile.new now cap), flusherRunning := true }, true)

/-- Result of `SignalScheduler::stop`. `qfalse` is the `Qfalse` return on
lock contention; the `panic...` constructors are the two `panic!`/`unwrap`
aborts; `document` is the normal return carrying the finalized profile
handed to the serializer (`ProfileSerializer::serialize`, whose rendering
is outside the modelled core). -/
inductive StopResult
  | qfalse
  | panicNoProfile
  | panicEmptySamples
  | document (finalized : Pf2.Profile)
deriving DecidableEq

/-- Whether a `stop` outcome is a process abort rather than a returned
value. -/
def StopResult.isPanic : StopResult → Bool
  | StopResult.panicNoProfile => true
  | StopResult.panicEmptySamples => true
  | _ => false

/-- `SignalScheduler::stop`: with no profile stored, `panic!("stop()
called before start()")`. Otherwise `try_write` the lock: on contention
print an error and return `Qfalse`. On success flush the temporary sample
buffer, then read the profile and evaluate
`profile.samples.last().unwrap()` for the debug print — an abort when the
durable sample list is empty — and finally serialize and return the
document. The flusher thread is never signalled or joined. -/
def stop (lockAvailable : Bool) (s : State) : State × StopResult :=
  match s.profile with
  | none => (s, StopResult.panicNoProfile)
  | some p =>
    if lockAvailable then
      let p := p.flush_temporary_sample_buffer
      let s := { s with profile := some p }
      match p.samples.getLast? with
      | none => (s, StopResult.panicEmptySamples)
      | some _ => (s, StopResult.document p)
    else
      (s, StopResult.qfalse)

/-- One iteration of the flusher thread's loop
(`start_profile_buffer_flusher_thread`): `try_write` the lock; on success
flush the temporary sample buffer, on contention print an error; then
sleep 500 ms. The loop body contains no exit condition. -/
def flusher_thread_iteration (lockAvailable : Bool) (p : Pf2.Profile) :
    Pf2.Profile :=
  if lockAvailable then p.flush_temporary_sample_buffer else p

/-- The profile after `n` iterations of the flusher loop, where `lock i`
says whether the lock was available at iteration `i`. -/
def flusher_run (lock : Nat → Bool) (p : Pf2.Profile) : Nat → Pf2.Profile
  | 0 => p
  | n + 1 => flusher_thread_iteration (lock n) (flusher_run lock p n)

end SignalScheduler

/-! Concrete fixtures used by witnesses and counterexamples. -/

/-- Concrete frame environment: every frame resolves to a Ruby function
whose only distinguishing metadata is its first line number (the frame
handle itself), so distinct handles yield distinct functions. -/
def envW : FrameEnv :=
  fun f =>
    { full_label := none, path := none, first_lineno := some (Int.ofNat f) }

/-- Concrete stack-capture collaborator producing an empty-stack sample
for the given thread. -/
def captureW : Nat → Sample :=
  fun t =>
    { timestamp := 1, ruby_thread := t, line_count := 0, frames := [], linenos := [] }

/-- Concrete raw sample: two identical frames (handle 5, line 10) on
thread 3, captured at timestamp 7. -/
def rawW : Sample :=
  { timestamp := 7, ruby_thread := 3, line_count := 2
    frames := [5, 5], linenos := [10, 10] }

/-- Concrete source profile started at timestamp 2 holding the one sample
`rawW`, staging buffer empty. -/
def srcW : Profile :=
  { start_timestamp := 2
    samples := [rawW]
    temporary_sample_buffer := { capacity := 10, staged := [] } }

/-- Concrete profile whose staging buffer is at capacity (capacity 1, one
staged sample). -/
def fullBufferProfile : Profile :=
  { start_timestamp := 0
    samples := []
    temporary_sample_buffer := { capacity := 1, staged := [captureW 0] } }

/-- Concrete profile with one staged, not yet flushed, sample. -/
def stagedW : Profile :=
  { start_timestamp := 2
    samples := []
    temporary_sample_buffer := { capacity := 10, staged := [rawW] } }

/-- Concrete scheduler state mid-run: profile `srcW` stored, flusher
thread running. -/
def runningW : SignalScheduler.State :=
  { profile := some srcW, flusherRunning := true }

/-! Verification predicates. -/

/-- The document state `st` resolves the captured frame `(frame, lineno)`
to location index `li`: the frame's `Function` first occurs in
`st.functions` at some index `fi`, and the `Location` built from `fi`,
the hit line and a `none` address first occurs in `st.locations` at `li`.
Since `position` is a function of the table and the entry, any two frames
with equal `(Function, lineno)` triples are forced to the same `fi` and
the same `li`. -/
def FrameOk (env : FrameEnv) (st : Serialization.Profile) (frame : Frame)
    (lineno : Int) (li : Nat) : Prop :=
  ∃ fi,
    position (isEq (ProfileSerializer2.extract_function_from_frame env frame))
        st.functions = some fi ∧
    position
        (isEq ({ function_index := fi, lineno := lineno, address := none } :
          Serialization.Location))
        st.locations = some li

/-- Every location entry of `st` references an in-bounds function index. -/
def LocOk (st : Serialization.Profile) : Prop :=
  ∀ loc ∈ st.locations, loc.function_index < st.functions.length

/-- The resolved sample `s` is a correct rendering of the raw sample
`raw` relative to document state `st`: it carries `raw`'s thread
identity, its stack has one index per captured frame, and each stack
entry is the resolved location index of the corresponding frame. -/
def SampleOk (env : FrameEnv) (st : Serialization.Profile) (raw : Sample)
    (s : Serialization.Sample) : Prop :=
  s.ruby_thread_id = some raw.ruby_thread ∧
  s.stack.length = raw.line_count ∧
  ∀ j, j < raw.line_count →
    FrameOk env st (raw.frames.getD j 0) (raw.linenos.getD j 0) (s.stack.getD j 0)

/-- The first `m` iterations of the per-sample frame loop of
`ProfileSerializer2::serialize`, starting from document state `st` and an
empty stack. `process_sample` is this fold at `m = raw.line_count`. -/
def framesFold (env : FrameEnv) (raw : Sample) (m : Nat)
    (st : Serialization.Profile) : Serialization.Profile × List Nat :=
  (List.range m).foldl (ProfileSerializer2.process_frame_step env raw) (st, [])

end Pf2

/-! Helper lemmas about `position` and `resolve`. -/

namespace Pf2

theorem position_lt_length {α : Type} {p : α → Bool} :
    ∀ {l : List α} {i : Nat}, position p l = some i → i < l.length := by
  intro l
  induction l with
  | nil => intro i h; simp [position] at h
  | cons x xs ih =>
    intro i h
    by_cases hx : p x
    · simp [position, hx] at h
      simp only [List.length_cons]
      omega
    · simp [position, hx] at h
      obtain ⟨j, hj, rfl⟩ := h
      have := ih hj
      simp
      omega

theorem position_eq_none {α : Type} {p : α → Bool} :
    ∀ {l : List α}, position p l = none → ∀ a ∈ l, p a = false := by
  intro l
  induction l with
  | nil => intro _ a ha; simp at ha
  | cons x xs ih =>
    intro h a ha
    by_cases hx : p x
    · simp [position, hx] at h
    · simp [position, hx] at h
      rcases List.mem_cons.mp ha with rfl | hmem
      · simpa using hx
      · exact ih h a hmem

theorem position_append_left {α : Type} {p : α → Bool} :
    ∀ {l : List α} {i : Nat} (t : List α),
      position p l = some i → position p (l ++ t) = some i := by
  intro l
  induction l with
  | nil => intro i t h; simp [position] at h
  | cons x xs ih =>
    intro i t h
    by_cases hx : p x
    · simp [position, hx] at h ⊢
      omega
    · simp [position, hx] at h ⊢
      obtain ⟨j, hj, rfl⟩ := h
      exact ⟨j, ih t hj, rfl⟩

theorem position_append_miss {α : Type} {p : α → Bool} {a : α} :
    ∀ {l : List α}, position p l = none → p a = true →
      position p (l ++ [a]) = some l.length := by
  intro l
  induction l with
  | nil => intro _ hp; simp [position, hp]
  | cons x xs ih =>
    intro h hp
    by_cases hx : p x
    · simp [position, hx] at h
    · have h2 := ih (by simpa [position, hx] using h) hp
      simp [position, hx, h2]

theorem isEq_self {α : Type} [DecidableEq α] (a : α) : isEq a a = true := by
  simp [isEq]

theorem resolve_position {α : Type} [DecidableEq α] (l : List α) (a : α) :
    position (isEq a) (resolve l a).1 = some (resolve l a).2 := by
  unfold resolve
  cases h : position (isEq a) l with
  | some i => simp [h]
  | none => simp [h, position_append_miss h (isEq_self a)]

theorem resolve_extends {α : Type} [DecidableEq α] (l : List α) (a : α) :
    ∃ t, (resolve l a).1 = l ++ t := by
  unfold resolve
  cases h : position (isEq a) l with
  | some i => exact ⟨[], by simp⟩
  | none => exact ⟨[a], rfl⟩

theorem resolve_idx_lt {α : Type} [DecidableEq α] (l : List α) (a : α) :
    (resolve l a).2 < (resolve l a).1.length :=
  position_lt_length (resolve_position l a)

theorem resolve_length_le {α : Type} [DecidableEq α] (l : List α) (a : α) :
    l.length ≤ (resolve l a).1.length := by
  obtain ⟨t, ht⟩ := resolve_extends l a
  simp [ht]

theorem resolve_nodup {α : Type} [DecidableEq α] {l : List α} (a : α)
    (h : l.Nodup) : (resolve l a).1.Nodup := by
  unfold resolve
  cases hp : position (isEq a) l with
  | some i => simpa using h
  | none =>
    have hnotmem : a ∉ l := by
      intro hmem
      have := position_eq_none hp a hmem
      simp [isEq] at this
    simp [List.nodup_append, h, hnotmem]

end Pf2

/-! Properties of a single `process_ruby_frame` step. -/

namespace Pf2

theorem resolve_mem {α : Type} [DecidableEq α] {l : List α} {a b : α}
    (h : b ∈ (resolve l a).1) : b ∈ l ∨ b = a := by
  unfold resolve at h
  cases hp : position (isEq a) l with
  | some i => simp [hp] at h; exact Or.inl h
  | none =>
    simp [hp] at h
    exact h

theorem process_ruby_frame_fields (env : FrameEnv) (st : Serialization.Profile)
    (frame : Frame) (lineno : Int) :
    (ProfileSerializer2.process_ruby_frame env st frame lineno).1.start_timestamp_ns
        = st.start_timestamp_ns ∧
    (ProfileSerializer2.process_ruby_frame env st frame lineno).1.duration_ns
        = st.duration_ns ∧
    (ProfileSerializer2.process_ruby_frame env st frame lineno).1.samples
        = st.samples := by
  unfold ProfileSerializer2.process_ruby_frame
  exact ⟨rfl, rfl, rfl⟩

theorem process_ruby_frame_functions_extends (env : FrameEnv)
    (st : Serialization.Profile) (frame : Frame) (lineno : Int) :
    ∃ t, (ProfileSerializer2.process_ruby_frame env st frame lineno).1.functions
        = st.functions ++ t := by
  unfold ProfileSerializer2.process_ruby_frame
  exact resolve_extends _ _

theorem process_ruby_frame_locations_extends (env : FrameEnv)
    (st : Serialization.Profile) (frame : Frame) (lineno : Int) :
    ∃ t, (ProfileSerializer2.process_ruby_frame env st frame lineno).1.locations
        = st.locations ++ t := by
  unfold ProfileSerializer2.process_ruby_frame
  exact resolve_extends _ _

theorem process_ruby_frame_frameOk (env : FrameEnv) (st : Serialization.Profile)
    (frame : Frame) (lineno : Int) :
    FrameOk env (ProfileSerializer2.process_ruby_frame env st frame lineno).1
      frame lineno (ProfileSerializer2.process_ruby_frame env st frame lineno).2 := by
  unfold ProfileSerializer2.process_ruby_frame FrameOk
  exact ⟨_, resolve_position _ _, resolve_position _ _⟩

theorem frameOk_mono {env : FrameEnv} {st st' : Serialization.Profile}
    {frame : Frame} {lineno : Int} {li : Nat}
    (h : FrameOk env st frame lineno li)
    (hf : ∃ t, st'.functions = st.functions ++ t)
    (hl : ∃ t, st'.locations = st.locations ++ t) :
    FrameOk env st' frame lineno li := by
  obtain ⟨fi, h1, h2⟩ := h
  obtain ⟨tf, htf⟩ := hf
  obtain ⟨tl, htl⟩ := hl
  refine ⟨fi, ?_, ?_⟩
  · rw [htf]
    exact position_append_left tf h1
  · rw [htl]
    exact position_append_left tl h2

theorem process_ruby_frame_functions_nodup (env : FrameEnv)
    (st : Serialization.Profile) (frame : Frame) (lineno : Int)
    (hf : st.functions.Nodup) :
    (ProfileSerializer2.process_ruby_frame env st frame lineno).1.functions.Nodup := by
  unfold ProfileSerializer2.process_ruby_frame
  exact resolve_nodup _ hf

theorem process_ruby_frame_locations_nodup (env : FrameEnv)
    (st : Serialization.Profile) (frame : Frame) (lineno : Int)
    (hl : st.locations.Nodup) :
    (ProfileSerializer2.process_ruby_frame env st frame lineno).1.locations.Nodup := by
  unfold ProfileSerializer2.process_ruby_frame
  exact resolve_nodup _ hl

theorem process_ruby_frame_locOk (env : FrameEnv) (st : Serialization.Profile)
    (frame : Frame) (lineno : Int) (h : LocOk st) :
    LocOk (ProfileSerializer2.process_ruby_frame env st frame lineno).1 := by
  unfold ProfileSerializer2.process_ruby_frame LocOk
  intro loc hmem
  rcases resolve_mem hmem with hold | hnew
  · exact lt_of_lt_of_le (h loc hold) (resolve_length_le _ _)
  · subst hnew
    exact resolve_idx_lt _ _

end Pf2

/-! Properties of the per-sample frame loop and of `process_sample`. -/

namespace Pf2

theorem framesFold_zero (env : FrameEnv) (raw : Sample)
    (st : Serialization.Profile) : framesFold env raw 0 st = (st, []) := rfl

theorem framesFold_succ (env : FrameEnv) (raw : Sample) (m : Nat)
    (st : Serialization.Profile) :
    framesFold env raw (m + 1) st =
      ProfileSerializer2.process_frame_step env raw (framesFold env raw m st) m := by
  unfold framesFold
  rw [List.range_succ, List.foldl_append]
  rfl

theorem process_sample_eq_framesFold (env : FrameEnv)
    (st : Serialization.Profile) (raw : Sample) :
    ProfileSerializer2.process_sample env st raw =
      { (framesFold env raw raw.line_count st).1 with
        samples := (framesFold env raw raw.line_count st).1.samples ++
          [{ stack := (framesFold env raw raw.line_count st).2
             ruby_thread_id := some raw.ruby_thread }] } := rfl

theorem framesFold_spec (env : FrameEnv) (raw : Sample) :
    ∀ (m : Nat) (st : Serialization.Profile),
      (framesFold env raw m st).1.start_timestamp_ns = st.start_timestamp_ns ∧
      (framesFold env raw m st).1.duration_ns = st.duration_ns ∧
      (framesFold env raw m st).1.samples = st.samples ∧
      (∃ t, (framesFold env raw m st).1.functions = st.functions ++ t) ∧
      (∃ t, (framesFold env raw m st).1.locations = st.locations ++ t) ∧
      (framesFold env raw m st).2.length = m ∧
      (∀ j, j < m →
        FrameOk env (framesFold env raw m st).1 (raw.frames.getD j 0)
          (raw.linenos.getD j 0) ((framesFold env raw m st).2.getD j 0)) ∧
      (st.functions.Nodup → (framesFold env raw m st).1.functions.Nodup) ∧
      (st.locations.Nodup → (framesFold env raw m st).1.locations.Nodup) ∧
      (LocOk st → LocOk (framesFold env raw m st).1) := by
  intro m
  induction m with
  | zero =>
    intro st
    refine ⟨rfl, rfl, rfl, ⟨[], by simp [framesFold_zero]⟩,
      ⟨[], by simp [framesFold_zero]⟩, rfl, ?_, id, id, id⟩
    intro j hj
    exact absurd hj (Nat.not_lt_zero j)
  | succ m ih =>
    intro st
    obtain ⟨hstart, hdur, hsamp, ⟨tf, htf⟩, ⟨tl, htl⟩, hlen, hok, hnf, hnl, hlo⟩ := ih st
    rw [framesFold_succ]
    set r := framesFold env raw m st with hr
    set frame := raw.frames.getD m 0 with hframe
    set lineno := raw.linenos.getD m 0 with hlineno
    have hstep : ProfileSerializer2.process_frame_step env raw r m =
        ((ProfileSerializer2.process_ruby_frame env r.1 frame lineno).1,
          r.2 ++ [(ProfileSerializer2.process_ruby_frame env r.1 frame lineno).2]) := rfl
    rw [hstep]
    obtain ⟨pfs, pfd, pfsam⟩ := process_ruby_frame_fields env r.1 frame lineno
    obtain ⟨tf2, htf2⟩ := process_ruby_frame_functions_extends env r.1 frame lineno
    obtain ⟨tl2, htl2⟩ := process_ruby_frame_locations_extends env r.1 frame lineno
    refine ⟨by rw [pfs, hstart], by rw [pfd, hdur], by rw [pfsam, hsamp],
      ⟨tf ++ tf2, by rw [htf2, htf, List.append_assoc]⟩,
      ⟨tl ++ tl2, by rw [htl2, htl, List.append_assoc]⟩,
      by simp [hlen], ?_, ?_, ?_, ?_⟩
    · intro j hj
      rcases Nat.lt_or_ge j m with hjm | hjm
      · have hgetD : (r.2 ++ [(ProfileSerializer2.process_ruby_frame env r.1 frame lineno).2]).getD j 0
            = r.2.getD j 0 := by
          apply List.getD_append
          rw [hlen]
          exact hjm
        rw [hgetD]
        exact frameOk_mono (hok j hjm) ⟨tf2, htf2⟩ ⟨tl2, htl2⟩
      · have hjeq : j = m := Nat.le_antisymm (Nat.lt_succ_iff.mp hj) hjm
        subst hjeq
        have hgetD : (r.2 ++ [(ProfileSerializer2.process_ruby_frame env r.1 frame lineno).2]).getD j 0
            = (ProfileSerializer2.process_ruby_frame env r.1 frame lineno).2 := by
          rw [List.getD_append_right]
          · rw [hlen]
            simp
          · rw [hlen]
        rw [hgetD]
        exact process_ruby_frame_frameOk env r.1 frame lineno
    · intro h
      exact process_ruby_frame_functions_nodup env r.1 frame lineno (hnf h)
    · intro h
      exact process_ruby_frame_locations_nodup env r.1 frame lineno (hnl h)
    · intro h
      exact process_ruby_frame_locOk env r.1 frame lineno (hlo h)

end Pf2

/-! Properties of `process_sample` and of the full `serialize` fold. -/

namespace Pf2

theorem sampleOk_mono {env : FrameEnv} {st st' : Serialization.Profile}
    {raw : Sample} {s : Serialization.Sample} (h : SampleOk env st raw s)
    (hf : ∃ t, st'.functions = st.functions ++ t)
    (hl : ∃ t, st'.locations = st.locations ++ t) :
    SampleOk env st' raw s :=
  ⟨h.1, h.2.1, fun j hj => frameOk_mono (h.2.2 j hj) hf hl⟩

theorem process_sample_spec (env : FrameEnv) (st : Serialization.Profile)
    (raw : Sample) :
    (ProfileSerializer2.process_sample env st raw).start_timestamp_ns
        = st.start_timestamp_ns ∧
    (ProfileSerializer2.process_sample env st raw).duration_ns = st.duration_ns ∧
    (∃ t, (ProfileSerializer2.process_sample env st raw).functions
        = st.functions ++ t) ∧
    (∃ t, (ProfileSerializer2.process_sample env st raw).locations
        = st.locations ++ t) ∧
    (∃ s, (ProfileSerializer2.process_sample env st raw).samples
        = st.samples ++ [s] ∧
      SampleOk env (ProfileSerializer2.process_sample env st raw) raw s) ∧
    (st.functions.Nodup →
      (ProfileSerializer2.process_sample env st raw).functions.Nodup) ∧
    (st.locations.Nodup →
      (ProfileSerializer2.process_sample env st raw).locations.Nodup) ∧
    (LocOk st → LocOk (ProfileSerializer2.process_sample env st raw)) := by
  obtain ⟨hstart, hdur, hsamp, hfext, hlext, hlen, hok, hnf, hnl, hlo⟩ :=
    framesFold_spec env raw raw.line_count st
  rw [process_sample_eq_framesFold]
  set r := framesFold env raw raw.line_count st with hr
  refine ⟨hstart, hdur, hfext, hlext,
    ⟨{ stack := r.2, ruby_thread_id := some raw.ruby_thread }, ?_, rfl, hlen, ?_⟩,
    hnf, hnl, ?_⟩
  · rw [hsamp]
  · intro j hj
    exact hok j hj
  · intro h
    exact hlo h

theorem serialize_fold_spec (env : FrameEnv) :
    ∀ (samples : List Sample) (st : Serialization.Profile),
      (samples.foldl (ProfileSerializer2.process_sample env) st).start_timestamp_ns
          = st.start_timestamp_ns ∧
      (samples.foldl (ProfileSerializer2.process_sample env) st).duration_ns
          = st.duration_ns ∧
      (∃ t, (samples.foldl (ProfileSerializer2.process_sample env) st).functions
          = st.functions ++ t) ∧
      (∃ t, (samples.foldl (ProfileSerializer2.process_sample env) st).locations
          = st.locations ++ t) ∧
      (∃ news,
        (samples.foldl (ProfileSerializer2.process_sample env) st).samples
            = st.samples ++ news ∧
        news.length = samples.length ∧
        ∀ k, k < samples.length →
          SampleOk env (samples.foldl (ProfileSerializer2.process_sample env) st)
            (samples.getD k rawDefault) (news.getD k Serialization.sampleDefault)) ∧
      (st.functions.Nodup →
        (samples.foldl (ProfileSerializer2.process_sample env) st).functions.Nodup) ∧
      (st.locations.Nodup →
        (samples.foldl (ProfileSerializer2.process_sample env) st).locations.Nodup) ∧
      (LocOk st → LocOk (samples.foldl (ProfileSerializer2.process_sample env) st)) := by
  intro samples
  induction samples with
  | nil =>
    intro st
    refine ⟨rfl, rfl, ⟨[], by simp⟩, ⟨[], by simp⟩,
      ⟨[], by simp, rfl, ?_⟩, id, id, id⟩
    intro k hk
    exact absurd hk (Nat.not_lt_zero k)
  | cons a l ih =>
    intro st
    obtain ⟨pstart, pdur, ⟨tf1, htf1⟩, ⟨tl1, htl1⟩, ⟨s0, hs0, hs0ok⟩, pnf, pnl, plo⟩ :=
      process_sample_spec env st a
    obtain ⟨istart, idur, ⟨tf2, htf2⟩, ⟨tl2, htl2⟩, ⟨news, hnews, hnlen, hnok⟩,
      inf, inl, ilo⟩ := ih (ProfileSerializer2.process_sample env st a)
    rw [List.foldl_cons]
    refine ⟨by rw [istart, pstart], by rw [idur, pdur],
      ⟨tf1 ++ tf2, by rw [htf2, htf1, List.append_assoc]⟩,
      ⟨tl1 ++ tl2, by rw [htl2, htl1, List.append_assoc]⟩,
      ⟨s0 :: news, ?_, by simp [hnlen], ?_⟩,
      fun h => inf (pnf h), fun h => inl (pnl h), fun h => ilo (plo h)⟩
    · rw [hnews, hs0]
      simp
    · intro k hk
      cases k with
      | zero =>
        simp only [List.getD_cons_zero]
        exact sampleOk_mono hs0ok ⟨tf2, htf2⟩ ⟨tl2, htl2⟩
      | succ k =>
        simp only [List.getD_cons_succ]
        exact hnok k (by simpa using hk)

end Pf2

/-! Claim theorems. -/

namespace Pf2

/-- C1: the claim says a `BufferFull` result from the staging push in the
signal handler is handled by dropping the sample and reporting it, never
fatally. The code instead calls `panic!` (a process abort) in that case —
even though the panic message itself reads "Dropping sample." — so the
claim describes the intended behavior and the code aborts: at a concrete
invocation that acquires the lock and finds the staging buffer at
capacity, the handler's outcome is the buffer-full panic. -/
theorem signal_handler_bufferfull_panics :
    SignalScheduler.signal_handler captureW true fullBufferProfile 0 =
      (fullBufferProfile, SignalScheduler.HandlerOutcome.panicBufferFull) := by
  decide

/-- C2 (counterexample): the claim says the serialized document's
`duration_ns` equals `last_sample.timestamp - start_timestamp` and its
`start_timestamp_ns` equals the profile's start timestamp. On the
concrete profile `srcW` (start timestamp 2, one sample at timestamp 7,
so the claim demands `duration_ns = 5` and `start_timestamp_ns = 2`),
`ProfileSerializer2` emits 0 for both: `serialize` never writes either
field after `new()` zero-initializes them. -/
theorem serializer2_duration_counterexample :
    srcW.samples ≠ [] ∧
    srcW.samples.getLast? = some rawW ∧
    rawW.timestamp - srcW.start_timestamp = 5 ∧
    (ProfileSerializer2.serializeDocument envW srcW).duration_ns = 0 ∧
    (ProfileSerializer2.serializeDocument envW srcW).duration_ns ≠
      rawW.timestamp - srcW.start_timestamp ∧
    (ProfileSerializer2.serializeDocument envW srcW).start_timestamp_ns ≠
      srcW.start_timestamp := by
  decide

/-- C2 (amended): for every input profile, the document produced by
`ProfileSerializer2::new` followed by `serialize` has `duration_ns = 0`
and `start_timestamp_ns = 0`; the serializer never computes either field
from the profile's samples or start timestamp. (With zero samples
`duration_ns = 0` as the claim states, but only trivially.) -/
theorem serializer2_timestamps_constant_zero (env : FrameEnv) (src : Profile) :
    (ProfileSerializer2.serializeDocument env src).duration_ns = 0 ∧
    (ProfileSerializer2.serializeDocument env src).start_timestamp_ns = 0 := by
  obtain ⟨hstart, hdur, _⟩ := serialize_fold_spec env src.samples ProfileSerializer2.new
  unfold ProfileSerializer2.serializeDocument ProfileSerializer2.serialize
  exact ⟨hdur.trans rfl, hstart.trans rfl⟩

/-- C3 (counterexample): the claim says `stop()` while Idle and `start()`
while Running both return an `InvalidState` error value and never abort.
Concretely: `stop` on the freshly allocated scheduler panics ("stop()
called before start()"), a process abort rather than an error return, and
`start` on an already-running scheduler returns `Qtrue` (silent success)
instead of failing. -/
theorem scheduler_invalidstate_counterexample :
    (SignalScheduler.stop true SignalScheduler.idle).2 =
      SignalScheduler.StopResult.panicNoProfile ∧
    (SignalScheduler.stop true SignalScheduler.idle).2.isPanic = true ∧
    (SignalScheduler.start runningW 5 10).2 = true := by
  decide

/-- C3 (amended): `start()` performs no state check — called in any state,
including Running, it succeeds, returning `Qtrue` and replacing the
profile; `stop()` with no profile stored (Idle) panics, a process abort,
not an error return. No `InvalidState` error value exists in the code. -/
theorem scheduler_no_invalidstate (s1 s2 : SignalScheduler.State) (now cap : Nat)
    (l : Bool) (h : s1.profile = none) :
    ((SignalScheduler.stop l s1).2).isPanic = true ∧
    (SignalScheduler.start s2 now cap).2 = true := by
  constructor
  · unfold SignalScheduler.stop
    rw [h]
    rfl
  · rfl

/-- Witness for `scheduler_no_invalidstate` at the concrete Idle scheduler
and the concrete running scheduler `runningW`. -/
theorem scheduler_no_invalidstate_witness :
    ((SignalScheduler.stop true SignalScheduler.idle).2).isPanic = true ∧
    (SignalScheduler.start runningW 5 10).2 = true :=
  scheduler_no_invalidstate SignalScheduler.idle runningW 5 10 true rfl

/-- C4: the locations table of every produced document holds exactly one
entry per distinct `(function, line, address)` triple — it is duplicate
free — and every sample frame's stack entry is the index returned by the
first-match scan for its triple, so any two frames carrying equal triples
reference the same single location index (and, within it, equal functions
share the same single function index). -/
theorem serializer2_dedup (env : FrameEnv) (src : Profile) :
    (ProfileSerializer2.serializeDocument env src).locations.Nodup ∧
    (ProfileSerializer2.serializeDocument env src).samples.length
        = src.samples.length ∧
    ∀ k, k < src.samples.length →
      ∀ j, j < (src.samples.getD k rawDefault).line_count →
        ∃ fi li,
          position (isEq (ProfileSerializer2.extract_function_from_frame env
              ((src.samples.getD k rawDefault).frames.getD j 0)))
            (ProfileSerializer2.serializeDocument env src).functions = some fi ∧
          position (isEq (Serialization.Location.mk fi
              ((src.samples.getD k rawDefault).linenos.getD j 0) none))
            (ProfileSerializer2.serializeDocument env src).locations = some li ∧
          ((ProfileSerializer2.serializeDocument env src).samples.getD k
              Serialization.sampleDefault).stack.getD j 0 = li := by
  obtain ⟨_, _, _, _, ⟨news, hnews, hnlen, hnok⟩, _, hnl, _⟩ :=
    serialize_fold_spec env src.samples ProfileSerializer2.new
  unfold ProfileSerializer2.serializeDocument ProfileSerializer2.serialize
  have hsam : (src.samples.foldl (ProfileSerializer2.process_sample env)
      ProfileSerializer2.new).samples = news := by
    simpa [ProfileSerializer2.new] using hnews
  refine ⟨hnl (by simp [ProfileSerializer2.new]), by rw [hsam, hnlen], ?_⟩
  intro k hk j hj
  obtain ⟨hth, hslen, hfok⟩ := hnok k hk
  obtain ⟨fi, hfi, hli⟩ := hfok j hj
  refine ⟨fi, (news.getD k Serialization.sampleDefault).stack.getD j 0, hfi, hli, ?_⟩
  rw [hsam]

/-- Witness for `serializer2_dedup` at the concrete profile `srcW`, whose
single sample repeats the frame `(5, line 10)` at stack positions 0 and 1. -/
theorem serializer2_dedup_witness :
    ∃ fi li,
      position (isEq (ProfileSerializer2.extract_function_from_frame envW
          ((srcW.samples.getD 0 rawDefault).frames.getD 1 0)))
        (ProfileSerializer2.serializeDocument envW srcW).functions = some fi ∧
      position (isEq (Serialization.Location.mk fi
          ((srcW.samples.getD 0 rawDefault).linenos.getD 1 0) none))
        (ProfileSerializer2.serializeDocument envW srcW).locations = some li ∧
      ((ProfileSerializer2.serializeDocument envW srcW).samples.getD 0
          Serialization.sampleDefault).stack.getD 1 0 = li :=
  (serializer2_dedup envW srcW).2.2 0 (by decide) 1 (by decide)

/-- C5: when the profile lock is already held, the signal handler's
non-blocking `try_write` fails and the handler returns immediately with
the profile untouched — the sample is dropped, nothing is staged, and the
outcome is the silent contention drop, not an error or abort. -/
theorem signal_handler_contention_drops (capture : Nat → Sample)
    (profile : Profile) (thread : Nat) :
    SignalScheduler.signal_handler capture false profile thread =
      (profile, SignalScheduler.HandlerOutcome.droppedLockContention) := rfl

/-- C6 (counterexample): the claim says `stop()` signals the flusher to
exit and joins it, so that after `stop()` returns the flusher never again
accesses the Profile. Concretely: after a successful `stop` on the
running scheduler `runningW` the flusher is still running, and a
subsequent flusher iteration still mutates a profile holding a staged
sample — the flusher is never signalled or joined. -/
theorem flusher_not_joined_counterexample :
    ((SignalScheduler.stop true runningW).1).flusherRunning = true ∧
    (SignalScheduler.stop true runningW).2 =
      SignalScheduler.StopResult.document srcW.flush_temporary_sample_buffer ∧
    SignalScheduler.flusher_thread_iteration true stagedW ≠ stagedW := by
  decide

/-- C6 (amended): `start()` spawns the flusher as a detached thread whose
loop has no exit condition; `stop()` neither signals it nor joins it —
`stop` leaves the flusher-running flag exactly as it found it, `start`
sets it, and a flusher iteration that acquires the lock still flushes the
shared profile regardless of scheduler state. -/
theorem flusher_outlives_stop (l : Bool) (s : SignalScheduler.State)
    (now cap : Nat) (p : Profile) :
    ((SignalScheduler.stop l s).1).flusherRunning = s.flusherRunning ∧
    ((SignalScheduler.start s now cap).1).flusherRunning = true ∧
    SignalScheduler.flusher_thread_iteration true p =
      p.flush_temporary_sample_buffer := by
  refine ⟨?_, rfl, rfl⟩
  unfold SignalScheduler.stop
  cases hp : s.profile with
  | none => rfl
  | some p2 =>
    cases l with
    | false => rfl
    | true =>
      cases hg : p2.flush_temporary_sample_buffer.samples.getLast? with
      | none => simp [hg]
      | some x => simp [hg]

/-- C7: every serializer operation on the document only appends to the
samples, locations and functions sequences: a `process_ruby_frame` step
extends `functions`/`locations` and leaves `samples` unchanged, and a full
`serialize` pass extends all three, so the entries at already-assigned
`FunctionIndex`/`LocationIndex`/sample positions — the `take` of the old
length — are exactly the old tables, never removed, reordered or
renumbered. -/
theorem serializer2_append_only (env : FrameEnv) (st : Serialization.Profile)
    (frame : Frame) (lineno : Int) (src : Profile) :
    (∃ t, (ProfileSerializer2.process_ruby_frame env st frame lineno).1.functions
        = st.functions ++ t) ∧
    (∃ t, (ProfileSerializer2.process_ruby_frame env st frame lineno).1.locations
        = st.locations ++ t) ∧
    (ProfileSerializer2.process_ruby_frame env st frame lineno).1.samples
        = st.samples ∧
    (∃ t, (ProfileSerializer2.serialize env st src).functions
        = st.functions ++ t) ∧
    (∃ t, (ProfileSerializer2.serialize env st src).locations
        = st.locations ++ t) ∧
    (∃ t, (ProfileSerializer2.serialize env st src).samples
        = st.samples ++ t) ∧
    (ProfileSerializer2.serialize env st src).functions.take st.functions.length
        = st.functions ∧
    (ProfileSerializer2.serialize env st src).locations.take st.locations.length
        = st.locations ∧
    (ProfileSerializer2.serialize env st src).samples.take st.samples.length
        = st.samples := by
  obtain ⟨_, _, ⟨tf, htf⟩, ⟨tl, htl⟩, ⟨news, hnews, _, _⟩, _, _, _⟩ :=
    serialize_fold_spec env src.samples st
  unfold ProfileSerializer2.serialize
  refine ⟨process_ruby_frame_functions_extends env st frame lineno,
    process_ruby_frame_locations_extends env st frame lineno,
    (process_ruby_frame_fields env st frame lineno).2.2,
    ⟨tf, htf⟩, ⟨tl, htl⟩, ⟨news, hnews⟩, ?_, ?_, ?_⟩
  · rw [htf]
    simp
  · rw [htl]
    simp
  · rw [hnews]
    simp

/-- C8: serialization is a pure transformation of the profile it reads:
the call hands the source back unchanged (it is taken by shared
reference), and the output depends only on the source's durable sample
list — two profiles with equal samples, whatever their start timestamps
or staging buffers, serialize to identical documents, so identical input
yields identical output. -/
theorem serializer2_pure (env : FrameEnv) (st : Serialization.Profile)
    (s1 s2 : Profile) (h : s1.samples = s2.samples) :
    ProfileSerializer2.serialize env st s1 =
      ProfileSerializer2.serialize env st s2 ∧
    (ProfileSerializer2.serialize_call env st s1).2 = s1 := by
  constructor
  · unfold ProfileSerializer2.serialize
    rw [h]
  · rfl

/-- Witness for `serializer2_pure`: the profile `srcW` and a profile with
the same samples but a different start timestamp and staging capacity
serialize identically, and the call returns the source unchanged. -/
theorem serializer2_pure_witness :
    ProfileSerializer2.serialize envW ProfileSerializer2.new srcW =
      ProfileSerializer2.serialize envW ProfileSerializer2.new
        { start_timestamp := 99, samples := [rawW],
          temporary_sample_buffer := { capacity := 0, staged := [] } } ∧
    (ProfileSerializer2.serialize_call envW ProfileSerializer2.new srcW).2 = srcW :=
  serializer2_pure envW ProfileSerializer2.new srcW
    { start_timestamp := 99, samples := [rawW],
      temporary_sample_buffer := { capacity := 0, staged := [] } } rfl

/-- C9: in every document the serializer produces, all cross-references
are in bounds: each location index in any sample's stack indexes the
emitted locations table, and each location's `function_index` indexes the
emitted functions table. -/
theorem serializer2_indices_in_bounds (env : FrameEnv) (src : Profile) :
    (∀ s ∈ (ProfileSerializer2.serializeDocument env src).samples,
      ∀ li ∈ s.stack,
        li < (ProfileSerializer2.serializeDocument env src).locations.length) ∧
    (∀ loc ∈ (ProfileSerializer2.serializeDocument env src).locations,
      loc.function_index <
        (ProfileSerializer2.serializeDocument env src).functions.length) := by
  obtain ⟨_, _, _, _, ⟨news, hnews, hnlen, hnok⟩, _, _, hlo⟩ :=
    serialize_fold_spec env src.samples ProfileSerializer2.new
  unfold ProfileSerializer2.serializeDocument ProfileSerializer2.serialize
  have hsam : (src.samples.foldl (ProfileSerializer2.process_sample env)
      ProfileSerializer2.new).samples = news := by
    simpa [ProfileSerializer2.new] using hnews
  constructor
  · intro s hs li hli
    rw [hsam] at hs
    obtain ⟨k, hk, hgetk⟩ := List.mem_iff_getElem.mp hs
    have hk2 : k < src.samples.length := by
      rw [← hnlen]
      exact hk
    obtain ⟨hth, hslen, hfok⟩ := hnok k hk2
    have hgd : news.getD k Serialization.sampleDefault = s := by
      rw [List.getD_eq_getElem news Serialization.sampleDefault hk, hgetk]
    obtain ⟨j, hj, hgetj⟩ := List.mem_iff_getElem.mp hli
    have hj2 : j < (src.samples.getD k rawDefault).line_count := by
      rw [← hslen, hgd]
      exact hj
    obtain ⟨fi, hfi, hli2⟩ := hfok j hj2
    have hstk : (news.getD k Serialization.sampleDefault).stack.getD j 0 = li := by
      rw [hgd, List.getD_eq_getElem s.stack 0 hj, hgetj]
    rw [hstk] at hli2
    exact position_lt_length hli2
  · intro loc hloc
    refine hlo ?_ loc hloc
    intro x hx
    simp [ProfileSerializer2.new] at hx

/-- Witness for `serializer2_indices_in_bounds`: in the document built
from `srcW`, the first stack entry of the emitted sample is a valid index
into the locations table. -/
theorem serializer2_indices_in_bounds_witness :
    0 < (ProfileSerializer2.serializeDocument envW srcW).locations.length :=
  (serializer2_indices_in_bounds envW srcW).1
    { stack := [0, 0], ruby_thread_id := some 3 } (by decide) 0 (by decide)

/-- C10: if `stop()` runs after a successful `start()` with zero samples
captured (empty durable list and empty staging buffer), it neither
returns a document nor an error value: after the final flush the sample
list is still empty, and `profile.samples.last().unwrap()` in the debug
print panics. -/
theorem stop_empty_samples_panics (s : SignalScheduler.State) (p : Profile)
    (h1 : s.profile = some p) (h2 : p.samples = [])
    (h3 : p.temporary_sample_buffer.staged = []) :
    (SignalScheduler.stop true s).2 = SignalScheduler.StopResult.panicEmptySamples := by
  unfold SignalScheduler.stop
  rw [h1]
  have hflush : p.flush_temporary_sample_buffer.samples = [] := by
    unfold Profile.flush_temporary_sample_buffer
    simp [h2, h3]
  simp [hflush]

/-- Witness for `stop_empty_samples_panics`: `stop` directly after
`start` on the fresh scheduler (no samples ever captured) panics at the
unguarded `unwrap`. -/
theorem stop_empty_samples_panics_witness :
    (SignalScheduler.stop true
        (SignalScheduler.start SignalScheduler.idle 2 10).1).2 =
      SignalScheduler.StopResult.panicEmptySamples :=
  stop_empty_samples_panics _ (Profile.new 2 10) rfl rfl rfl

end Pf2
